import Mathlib

/-!
# LearnOpenGL/main.cpp : a shallow embedding

The program is a single translation unit: global input state, three GLFW
callbacks, `calculateCameraMovement`, and `main` with its render loop.

Modelling conventions.

* `GLfloat` and `double` values are exact rationals (`ℚ`).  Rounding and the
  narrowing `double → GLfloat` are outside the model.
* Every call that leaves `main.cpp` (GLFW, GL, the shader program, the textures,
  the camera) is recorded, in program order, as a `Call`.
* The C arrays `keys[1024]` and `cubePositions[10]` are read and written through
  checked accessors; an access outside the array makes the enclosing function
  return `none`.
* `Camera.h`, `GlslProgram.h` and `Image.h` are not part of `main.cpp`.  The
  camera is a parameter (`CameraOps`); shader and texture operations are calls.
* Matrices are kept as the expressions that build them (`Mvp`).
-/

namespace LearnOpenGL

set_option linter.unusedVariables false

/-! ## Constants of the GLFW / GLEW headers used by `main.cpp` -/

/-- GLFW action code for a key release (`GLFW/glfw3.h`). -/
def GLFW_RELEASE : Int := 0
/-- GLFW action code for a key press. -/
def GLFW_PRESS : Int := 1
/-- GLFW action code for a held key that repeats. -/
def GLFW_REPEAT : Int := 2
/-- GLFW key code reported for keys it does not know. -/
def GLFW_KEY_UNKNOWN : Int := -1
/-- GLFW key code of the escape key. -/
def GLFW_KEY_ESCAPE : Int := 256
/-- GLFW key code of the right arrow. -/
def GLFW_KEY_RIGHT : Int := 262
/-- GLFW key code of the left arrow. -/
def GLFW_KEY_LEFT : Int := 263
/-- GLFW key code of the W key. -/
def GLFW_KEY_W : Int := 87
/-- GLFW key code of the A key. -/
def GLFW_KEY_A : Int := 65
/-- GLFW key code of the S key. -/
def GLFW_KEY_S : Int := 83
/-- GLFW key code of the D key. -/
def GLFW_KEY_D : Int := 68
/-- GLEW success code returned by glewInit. -/
def GLEW_OK : Nat := 0

/-- Window width, `const GLuint WINDOW_WIDTH = 800`. -/
def WINDOW_WIDTH : Nat := 800
/-- Window height, `const GLuint WINDOW_HEIGHT = 600`. -/
def WINDOW_HEIGHT : Nat := 600

/-! ## Data -/

/-- A `glm::vec3` with exact components. -/
structure Vec3 where
  x : ℚ
  y : ℚ
  z : ℚ
deriving DecidableEq

/-- The direction argument of `Camera::processKeyboard`. -/
inductive Camera_Movement where
  | FORWARD
  | BACKWARD
  | LEFT
  | RIGHT
deriving DecidableEq

/-- The operations of `Camera` that `main.cpp` calls.  Their bodies live in
`Camera.h`; here they are parameters. -/
structure CameraOps (Cam View : Type) where
  processMouse : Cam → ℚ → ℚ → Cam
  processScroll : Cam → ℚ → Cam
  processKeyboard : Cam → Camera_Movement → ℚ → Cam
  getViewMatrix : Cam → View

/-- The arguments of `glm::perspective(glm::radians(fovDeg), aspect, near, far)`. -/
structure Perspective where
  fovDeg : ℚ
  aspect : ℚ
  near : ℚ
  far : ℚ
deriving DecidableEq

/-- The model matrix `rotate(translate(I, translate), radians(angleDeg), axis)`. -/
structure ModelMatrix where
  translate : Vec3
  angleDeg : ℚ
  axis : Vec3
deriving DecidableEq

/-- The product `projection * view * model` uploaded as `uModelViewProjection`. -/
structure Mvp (View : Type) where
  projection : Perspective
  view : View
  model : ModelMatrix

/-- A call leaving `main.cpp`. -/
inductive Call (View : Type) where
  /-- a GLFW or GL call whose arguments play no role in the analysis -/
  | api (name : String)
  /-- a line written to `std::cout` -/
  | print (msg : String)
  | glfwSetWindowShouldClose
  | processMouse (xoffset yoffset : ℚ)
  | processScroll (yoffset : ℚ)
  | processKeyboard (direction : Camera_Movement) (deltaTime : ℚ)
  | setupProgramFromFile (vertexPath fragmentPath : String)
  | loadImage (path : String) (width height : Nat)
  | glfwPollEvents
  | glfwGetTime
  | programBegin
  | programEnd
  | imageBind (tex : Nat)
  | imageUnbind (tex : Nat)
  | setUniformSampler2D (name : String) (textureUnit : Nat)
  | setUniform1f (name : String) (value : ℚ)
  | setUniform4x4Matrix (name : String) (matrix : Mvp View)
  | glDrawArrays (first count : Nat)
  | glfwSwapBuffers

/-- The globals of `main.cpp` (lines 29-40), with the close flag of the one
window the program owns. -/
structure Globals (Cam : Type) where
  /-- The array `bool keys[1024]`. -/
  keys : Fin 1024 → Bool
  deltaTime : ℚ
  lastFrame : ℚ
  lastX : ℚ
  lastY : ℚ
  firstMouse : Bool
  uCross : ℚ
  cam : Cam
  /-- what `glfwWindowShouldClose(window)` returns -/
  windowShouldClose : Bool

/-- The globals as their initialisers leave them; `cam0` is the
default-constructed camera. -/
def Globals.init {Cam : Type} (cam0 : Cam) : Globals Cam where
  keys := fun _ => false
  deltaTime := 0
  lastFrame := 0
  lastX := ((WINDOW_WIDTH / 2 : Nat) : ℚ)
  lastY := ((WINDOW_HEIGHT / 2 : Nat) : ℚ)
  firstMouse := true
  uCross := 2 / 10
  cam := cam0
  windowShouldClose := false

/-- Checked read of `keys[i]`: `none` when `i` is outside the array. -/
def keysRead (keys : Fin 1024 → Bool) (i : Int) : Option Bool :=
  if h : 0 ≤ i ∧ i < 1024 then some (keys ⟨i.toNat, by omega⟩) else none

/-- Checked write `keys[i] = v`: `none` when `i` is outside the array. -/
def keysWrite (keys : Fin 1024 → Bool) (i : Int) (v : Bool) : Option (Fin 1024 → Bool) :=
  if h : 0 ≤ i ∧ i < 1024 then some (Function.update keys ⟨i.toNat, by omega⟩ v) else none

/-! ## The callbacks -/

section Callbacks

variable {Cam View : Type}

/-- The function `mouse_callback` (lines 42-57): the new globals and the call made to
the camera. -/
def mouse_callback (ops : CameraOps Cam View) (g : Globals Cam) (xpos ypos : ℚ) :
    Globals Cam × List (Call View) :=
  let g1 : Globals Cam :=
    if g.firstMouse then { g with lastX := xpos, lastY := ypos, firstMouse := false } else g
  let xoffset := xpos - g1.lastX
  let yoffset := g1.lastY - ypos
  let g2 : Globals Cam := { g1 with lastX := xpos, lastY := ypos }
  ({ g2 with cam := ops.processMouse g2.cam xoffset yoffset }, [Call.processMouse xoffset yoffset])

/-- The function `key_callback` (lines 59-78).  The result `none` would be a write
outside `keys`. -/
def key_callback (g : Globals Cam) (key scancode action mode : Int) :
    Option (Globals Cam × List (Call View)) :=
  let r : Globals Cam × List (Call View) :=
    if key = GLFW_KEY_ESCAPE ∧ action = GLFW_PRESS then
      ({ g with windowShouldClose := true }, [Call.glfwSetWindowShouldClose])
    else (g, [])
  if key ≥ 0 ∧ key < 1024 then
    if action = GLFW_PRESS then
      (keysWrite r.1.keys key true).map fun k => ({ r.1 with keys := k }, r.2)
    else if action = GLFW_RELEASE then
      (keysWrite r.1.keys key false).map fun k => ({ r.1 with keys := k }, r.2)
    else some r
  else some r

/-- The function `scroll_callback` (lines 80-83). -/
def scroll_callback (ops : CameraOps Cam View) (g : Globals Cam) (xoffset yoffset : ℚ) :
    Globals Cam × List (Call View) :=
  ({ g with cam := ops.processScroll g.cam yoffset }, [Call.processScroll yoffset])

/-- One statement `if (keys[K]) cam.processKeyboard(D, deltaTime);` of
`calculateCameraMovement`. -/
def moveIfHeld (ops : CameraOps Cam View) (key : Int) (d : Camera_Movement)
    (s : Globals Cam × List (Call View)) : Option (Globals Cam × List (Call View)) :=
  (keysRead s.1.keys key).map fun held =>
    if held then
      ({ s.1 with cam := ops.processKeyboard s.1.cam d s.1.deltaTime },
        s.2 ++ [Call.processKeyboard d s.1.deltaTime])
    else s

/-- The first four statements of `calculateCameraMovement` (lines 87-92), which
update `uCross`.  The two clamps are not governed by the key tests: each `if`
on a key has the single statement after it as its body. -/
def updateCross (keys : Fin 1024 → Bool) (uCross : ℚ) : Option ℚ :=
  (keysRead keys GLFW_KEY_LEFT).bind fun left =>
    let u1 := if left then uCross - 1 / 10 else uCross
    let u2 := if u1 < 0 then 0 else u1
    (keysRead keys GLFW_KEY_RIGHT).map fun right =>
      let u3 := if right then u2 + 1 / 10 else u2
      if u3 > 1 then 1 else u3

/-- The function `calculateCameraMovement` (lines 85-101). -/
def calculateCameraMovement (ops : CameraOps Cam View) (g : Globals Cam) :
    Option (Globals Cam × List (Call View)) :=
  (updateCross g.keys g.uCross).bind fun u =>
    (moveIfHeld ops GLFW_KEY_W Camera_Movement.FORWARD ({ g with uCross := u }, [])).bind fun s1 =>
    (moveIfHeld ops GLFW_KEY_S Camera_Movement.BACKWARD s1).bind fun s2 =>
    (moveIfHeld ops GLFW_KEY_A Camera_Movement.LEFT s2).bind fun s3 =>
    moveIfHeld ops GLFW_KEY_D Camera_Movement.RIGHT s3

end Callbacks

/-! ## `main` -/

/-- The `cubePositions` array of `main` (lines 183-194). -/
def cubePositions : List Vec3 := [
  ⟨0.0, 0.0, 0.0⟩,
  ⟨2.0, 5.0, -15.0⟩,
  ⟨-1.5, -2.2, -2.5⟩,
  ⟨-3.8, -2.0, -12.3⟩,
  ⟨2.4, -0.4, -3.5⟩,
  ⟨-1.7, 3.0, -7.5⟩,
  ⟨1.3, -2.0, -2.5⟩,
  ⟨1.5, 2.0, -2.5⟩,
  ⟨1.5, 0.2, -1.5⟩,
  ⟨-1.3, 1.0, -1.5⟩]

/-- An event that `glfwPollEvents` hands to the program.  The first three go to
the registered callbacks; `close` is the window system asking the window to
close, on which GLFW sets the close flag itself. -/
inductive Event where
  | key (key scancode action mode : Int)
  | cursorPos (xpos ypos : ℚ)
  | scroll (xoffset yoffset : ℚ)
  | close

/-- What one iteration of the render loop receives from outside: the events
pending at `glfwPollEvents` and the value `glfwGetTime` returns. -/
structure FrameInput where
  events : List Event
  time : ℚ

/-- Everything `main` receives from outside. -/
structure Env where
  /-- whether `glfwCreateWindow` returned a window (not `nullptr`) -/
  windowCreated : Bool
  /-- the value `glewInit()` returns -/
  glewInit : Nat
  /-- the inputs of the successive render-loop iterations -/
  frames : List FrameInput

section Main

variable {Cam View : Type}

/-- Delivery of one event to its callback. -/
def dispatch (ops : CameraOps Cam View) (g : Globals Cam) :
    Event → Option (Globals Cam × List (Call View))
  | Event.key key scancode action mode => key_callback g key scancode action mode
  | Event.cursorPos xpos ypos => some (mouse_callback ops g xpos ypos)
  | Event.scroll xoffset yoffset => some (scroll_callback ops g xoffset yoffset)
  | Event.close => some ({ g with windowShouldClose := true }, [])

/-- The call `glfwPollEvents()`: the pending events are delivered in order. -/
def pollEvents (ops : CameraOps Cam View) :
    Globals Cam → List Event → Option (Globals Cam × List (Call View))
  | g, [] => some (g, [])
  | g, e :: es =>
    (dispatch ops g e).bind fun r1 =>
      (pollEvents ops r1.1 es).map fun r2 => (r2.1, r1.2 ++ r2.2)

/-- The projection built at line 303. -/
def projection : Perspective where
  fovDeg := 45
  aspect := (WINDOW_WIDTH : ℚ) / (WINDOW_HEIGHT : ℚ)
  near := 1 / 10
  far := 100

/-- The body of the `for` loop at lines 308-318 for loop index `i`.  `none` would
be a read of `cubePositions[i]` past the end of the array. -/
def drawCube (view : View) (i : Nat) : Option (List (Call View)) :=
  (cubePositions.get? i).map fun pos =>
    let angle : ℚ := 20 * (i : ℚ)
    let model : ModelMatrix := ⟨pos, angle, ⟨1.0, 0.3, 0.5⟩⟩
    [Call.setUniform4x4Matrix "uModelViewProjection" ⟨projection, view, model⟩,
      Call.glDrawArrays 0 36]

/-- The loop `for(GLuint i = 0; i < 10; i++)` run from index `i` with `n`
iterations left. -/
def drawLoop (view : View) : Nat → Nat → Option (List (Call View))
  | _, 0 => some []
  | i, n + 1 =>
    (drawCube view i).bind fun c => (drawLoop view (i + 1) n).map fun cs => c ++ cs

/-- One executed iteration of the render loop: the globals when it ends and the
calls it made. -/
structure Iteration (Cam View : Type) where
  globals : Globals Cam
  calls : List (Call View)

/-- The body of the render loop (lines 256-329). -/
def frame (ops : CameraOps Cam View) (g : Globals Cam) (f : FrameInput) :
    Option (Iteration Cam View) :=
  (pollEvents ops g f.events).bind fun r1 =>
    let currentFrame := f.time
    let g2 : Globals Cam :=
      { r1.1 with deltaTime := currentFrame - r1.1.lastFrame, lastFrame := currentFrame }
    (calculateCameraMovement ops g2).bind fun r3 =>
      (drawLoop (ops.getViewMatrix r3.1.cam) 0 10).map fun draws =>
        { globals := r3.1
          calls :=
            [Call.glfwPollEvents] ++ r1.2 ++ [Call.glfwGetTime] ++ r3.2 ++
            [Call.api "glClearColor", Call.api "glClear", Call.programBegin,
              Call.api "glActiveTexture", Call.imageBind 0,
              Call.setUniformSampler2D "tex0" 0,
              Call.api "glActiveTexture", Call.imageBind 1,
              Call.setUniformSampler2D "tex1" 1,
              Call.setUniform1f "uCross" r3.1.uCross,
              Call.api "glBindVertexArray"] ++ draws ++
            [Call.api "glBindVertexArray", Call.imageUnbind 0, Call.imageUnbind 1,
              Call.programEnd, Call.glfwSwapBuffers] }

/-- The outcome of the render loop on a finite supply of frame inputs. -/
structure LoopResult (Cam View : Type) where
  /-- the iterations that ran, in order -/
  iterations : List (Iteration Cam View)
  /-- the globals when the loop stopped -/
  final : Globals Cam
  /-- the loop test saw the close flag; `false` when the inputs ran out first -/
  exited : Bool

/-- The render loop `while(!glfwWindowShouldClose(window)) ...` (line 254): the
flag is tested before each iteration. -/
def renderLoop (ops : CameraOps Cam View) :
    Globals Cam → List FrameInput → Option (LoopResult Cam View)
  | g, [] => some ⟨[], g, g.windowShouldClose⟩
  | g, f :: fs =>
    if g.windowShouldClose then some ⟨[], g, true⟩
    else
      (frame ops g f).bind fun it =>
        (renderLoop ops it.globals fs).map fun r => ⟨it :: r.iterations, r.final, r.exited⟩

/-- A run of `main`. -/
structure Run (Cam View : Type) where
  /-- the calls before the render loop -/
  startup : List (Call View)
  /-- the render-loop iterations -/
  iterations : List (Iteration Cam View)
  /-- the calls after the render loop -/
  shutdown : List (Call View)
  /-- the value `main` returns; `none` when the frame inputs ran out with the
  loop still running -/
  exit : Option Int

/-- All calls of a run, in program order. -/
def Run.trace (r : Run Cam View) : List (Call View) :=
  r.startup ++ (r.iterations.map Iteration.calls).flatten ++ r.shutdown

/-- The calls of `main` up to and including `glfwCreateWindow` (lines 105-113). -/
def callsToWindow : List (Call View) :=
  [Call.api "glfwInit", Call.api "glfwWindowHint", Call.api "glfwWindowHint",
    Call.api "glfwWindowHint", Call.api "glfwWindowHint", Call.api "glfwWindowHint",
    Call.api "glfwWindowHint", Call.api "glfwCreateWindow"]

/-- The calls of `main` from `glfwMakeContextCurrent` to `glewInit` (lines 120-129). -/
def callsToGlew : List (Call View) :=
  [Call.api "glfwMakeContextCurrent", Call.api "glfwSetKeyCallback",
    Call.api "glfwSetCursorPosCallback", Call.api "glfwSetScrollCallback",
    Call.api "glfwSetInputMode", Call.api "glewInit"]

/-- The calls of `main` from `glViewport` to the second `loadImage` (lines 136-242). -/
def callsToLoop : List (Call View) :=
  [Call.api "glViewport", Call.api "glEnable", Call.api "glGenVertexArrays",
    Call.api "glGenBuffers", Call.api "glBindVertexArray", Call.api "glBindBuffer",
    Call.api "glBufferData", Call.api "glVertexAttribPointer",
    Call.api "glEnableVertexAttribArray", Call.api "glVertexAttribPointer",
    Call.api "glEnableVertexAttribArray", Call.api "glBindBuffer",
    Call.api "glBindVertexArray",
    Call.setupProgramFromFile "shaders/shader.vert" "shaders/shader.frag",
    Call.loadImage "assets/container.jpg" 512 512,
    Call.loadImage "assets/awesomeface.png" 512 512]

/-- The calls of `main` after the render loop (lines 332-336). -/
def callsAfterLoop : List (Call View) :=
  [Call.api "glDeleteVertexArrays", Call.api "glDeleteBuffers", Call.api "glfwTerminate",
    Call.print "Terminating the application."]

/-- The function `main` (lines 103-338), started with the default-constructed
camera `cam0`. -/
def main (ops : CameraOps Cam View) (cam0 : Cam) (env : Env) : Option (Run Cam View) :=
  if !env.windowCreated then
    some
      { startup := callsToWindow ++ [Call.print "Failed to create GLFW window.",
          Call.api "glfwTerminate"]
        iterations := []
        shutdown := []
        exit := some (-1) }
  else if env.glewInit ≠ GLEW_OK then
    some
      { startup := callsToWindow ++ callsToGlew ++ [Call.print "Failed to initialize GLEW."]
        iterations := []
        shutdown := []
        exit := some (-1) }
  else
    (renderLoop ops (Globals.init cam0) env.frames).map fun r =>
      { startup := callsToWindow ++ callsToGlew ++ callsToLoop
        iterations := r.iterations
        shutdown := if r.exited then callsAfterLoop else []
        exit := if r.exited then some 0 else none }

end Main

/-! ## The shader-program discipline, as a monitor over the calls -/

section Monitor

variable {View : Type}

/-- One step of the begin/end discipline of the shader program.  The state is
whether the program is active; `none` is a violation: `begin` while active,
`end` while inactive, or a uniform upload or draw while inactive. -/
def programStep (active : Bool) : Call View → Option Bool
  | Call.programBegin => if active then none else some true
  | Call.programEnd => if active then some false else none
  | Call.setUniformSampler2D _ _ => if active then some true else none
  | Call.setUniform1f _ _ => if active then some true else none
  | Call.setUniform4x4Matrix _ _ => if active then some true else none
  | Call.glDrawArrays _ _ => if active then some true else none
  | _ => some active

/-- The monitor run over a sequence of calls: the final state, or `none` as
soon as one call violates the discipline. -/
def programRun : Bool → List (Call View) → Option Bool
  | active, [] => some active
  | active, c :: cs => (programStep active c).bind fun a => programRun a cs

/-- The draw calls in a sequence of calls, each with the matrix that the last
`setUniform4x4Matrix` before it uploaded (`cur` is the matrix in place at the
start) and with its vertex count. -/
def drawsWith (cur : Option (String × Mvp View)) :
    List (Call View) → List (Option (String × Mvp View) × Nat)
  | [] => []
  | Call.setUniform4x4Matrix name m :: cs => drawsWith (some (name, m)) cs
  | Call.glDrawArrays _ count :: cs => (cur, count) :: drawsWith cur cs
  | _ :: cs => drawsWith cur cs

/-- The calls the callbacks can make: to the camera and to the close flag. -/
def Call.isInput : Call View → Bool
  | Call.processMouse _ _ => true
  | Call.processScroll _ => true
  | Call.glfwSetWindowShouldClose => true
  | _ => false

/-- The calls of a run that belong to shader setup, texture loading or the
render loop. -/
def Call.isRender : Call View → Bool
  | Call.setupProgramFromFile _ _ => true
  | Call.loadImage _ _ _ => true
  | Call.glfwPollEvents => true
  | Call.glfwGetTime => true
  | Call.programBegin => true
  | Call.programEnd => true
  | Call.imageBind _ => true
  | Call.imageUnbind _ => true
  | Call.setUniformSampler2D _ _ => true
  | Call.setUniform1f _ _ => true
  | Call.setUniform4x4Matrix _ _ => true
  | Call.glDrawArrays _ _ => true
  | Call.glfwSwapBuffers => true
  | Call.processKeyboard _ _ => true
  | _ => false

end Monitor

/-! ## The camera of the spec -/

/-- Modelled from the spec: the zoom of `Camera`, whose source (`Camera.h`) is
not among the sources.  Spec 4.1: "On each scroll event,
decrement/increment zoom by the scroll offset, clamped to [1°, 45°]". -/
structure ZoomCamera where
  zoom : ℚ
deriving DecidableEq

/-- Modelled from the spec: the default camera has the widest zoom, 45 degrees. -/
def ZoomCamera.default : ZoomCamera := ⟨45⟩

/-- Modelled from the spec: `processScroll` subtracts the scroll offset from the
zoom and clamps the result to [1, 45]. -/
def ZoomCamera.processScroll (c : ZoomCamera) (yoffset : ℚ) : ZoomCamera :=
  ⟨max 1 (min 45 (c.zoom - yoffset))⟩

/-- Modelled from the spec: the camera operations as far as they concern the
zoom; mouse and keyboard input leave the zoom alone, and the view matrix does
not depend on it. -/
def zoomOps : CameraOps ZoomCamera Unit where
  processMouse := fun c _ _ => c
  processScroll := ZoomCamera.processScroll
  processKeyboard := fun c _ _ => c
  getViewMatrix := fun _ => ()

section Facts

variable {Cam View : Type}

theorem keysRead_of_range (keys : Fin 1024 → Bool) (i : Int) (h0 : 0 ≤ i) (h1 : i < 1024) :
    keysRead keys i = some (keys ⟨i.toNat, by omega⟩) := by
  simp [keysRead, h0, h1]

theorem keysWrite_of_range (keys : Fin 1024 → Bool) (i : Int) (v : Bool)
    (h0 : 0 ≤ i) (h1 : i < 1024) :
    keysWrite keys i v = some (Function.update keys ⟨i.toNat, by omega⟩ v) := by
  simp [keysWrite, h0, h1]

/-- What `key_callback` does to everything but the key table. -/
theorem key_callback_frame (g : Globals Cam) (key scancode action mode : Int) :
    ∃ r : Globals Cam × List (Call View),
      key_callback g key scancode action mode = some r ∧
      r.1.windowShouldClose =
        (g.windowShouldClose || decide (key = GLFW_KEY_ESCAPE ∧ action = GLFW_PRESS)) ∧
      r.1.lastFrame = g.lastFrame ∧ r.1.deltaTime = g.deltaTime ∧
      r.1.lastX = g.lastX ∧ r.1.lastY = g.lastY ∧ r.1.firstMouse = g.firstMouse ∧
      r.1.uCross = g.uCross ∧ r.1.cam = g.cam ∧
      ∀ c ∈ r.2, Call.isInput c = true := by
  unfold key_callback
  dsimp only
  generalize hr :
    (if key = GLFW_KEY_ESCAPE ∧ action = GLFW_PRESS then
      (({ g with windowShouldClose := true } : Globals Cam),
        ([Call.glfwSetWindowShouldClose] : List (Call View)))
    else (g, [])) = r
  have hr1 : r.1.windowShouldClose =
        (g.windowShouldClose || decide (key = GLFW_KEY_ESCAPE ∧ action = GLFW_PRESS)) ∧
      r.1.lastFrame = g.lastFrame ∧ r.1.deltaTime = g.deltaTime ∧
      r.1.lastX = g.lastX ∧ r.1.lastY = g.lastY ∧ r.1.firstMouse = g.firstMouse ∧
      r.1.uCross = g.uCross ∧ r.1.cam = g.cam ∧
      ∀ c ∈ r.2, Call.isInput c = true := by
    subst hr
    by_cases he : key = GLFW_KEY_ESCAPE ∧ action = GLFW_PRESS
    · rw [if_pos he]
      simp [he, Call.isInput]
    · rw [if_neg he]
      simp [he]
  by_cases hk : key ≥ 0 ∧ key < 1024
  · rw [if_pos hk]
    by_cases hp : action = GLFW_PRESS
    · rw [if_pos hp, keysWrite_of_range _ _ _ hk.1 hk.2]
      exact ⟨_, rfl, hr1⟩
    · rw [if_neg hp]
      by_cases hl : action = GLFW_RELEASE
      · rw [if_pos hl, keysWrite_of_range _ _ _ hk.1 hk.2]
        exact ⟨_, rfl, hr1⟩
      · rw [if_neg hl]
        exact ⟨_, rfl, hr1⟩
  · rw [if_neg hk]
    exact ⟨_, rfl, hr1⟩

/-- Every event is delivered; its callback leaves the frame clock and the mix
factor alone and calls only the camera or the close flag. -/
theorem dispatch_frame (ops : CameraOps Cam View) (g : Globals Cam) (e : Event) :
    ∃ r : Globals Cam × List (Call View),
      dispatch ops g e = some r ∧ r.1.lastFrame = g.lastFrame ∧ r.1.uCross = g.uCross ∧
      ∀ c ∈ r.2, Call.isInput c = true := by
  cases e with
  | key key scancode action mode =>
    obtain ⟨r, h, _, h2, _, _, _, _, h7, _, h9⟩ :=
      @key_callback_frame Cam View g key scancode action mode
    exact ⟨r, h, h2, h7, h9⟩
  | cursorPos xpos ypos =>
    refine ⟨_, rfl, ?_, ?_, ?_⟩
    · simp only [mouse_callback]; split <;> rfl
    · simp only [mouse_callback]; split <;> rfl
    · simp [mouse_callback, Call.isInput]
  | scroll xoffset yoffset =>
    exact ⟨_, rfl, rfl, rfl, by simp [scroll_callback, Call.isInput]⟩
  | close => exact ⟨_, rfl, rfl, rfl, by simp⟩

theorem pollEvents_frame (ops : CameraOps Cam View) :
    ∀ (es : List Event) (g : Globals Cam),
      ∃ r : Globals Cam × List (Call View),
        pollEvents ops g es = some r ∧ r.1.lastFrame = g.lastFrame ∧ r.1.uCross = g.uCross ∧
        ∀ c ∈ r.2, Call.isInput c = true
  | [], g => ⟨_, rfl, rfl, rfl, by simp⟩
  | e :: es, g => by
    obtain ⟨r1, h1, a1, b1, c1⟩ := dispatch_frame ops g e
    obtain ⟨r2, h2, a2, b2, c2⟩ := pollEvents_frame ops es r1.1
    refine ⟨(r2.1, r1.2 ++ r2.2), ?_, a2.trans a1, b2.trans b1, ?_⟩
    · simp [pollEvents, h1, h2]
    · intro c hc
      rcases List.mem_append.1 hc with h | h
      · exact c1 c h
      · exact c2 c h

theorem moveIfHeld_frame (ops : CameraOps Cam View) (key : Int) (d : Camera_Movement)
    (s : Globals Cam × List (Call View)) (h0 : 0 ≤ key) (h1 : key < 1024)
    (hs : ∀ c ∈ s.2, ∃ d, c = Call.processKeyboard d s.1.deltaTime) :
    ∃ r : Globals Cam × List (Call View),
      moveIfHeld ops key d s = some r ∧ r.1.keys = s.1.keys ∧
      r.1.deltaTime = s.1.deltaTime ∧ r.1.lastFrame = s.1.lastFrame ∧
      r.1.uCross = s.1.uCross ∧ r.1.windowShouldClose = s.1.windowShouldClose ∧
      ∀ c ∈ r.2, ∃ d, c = Call.processKeyboard d r.1.deltaTime := by
  unfold moveIfHeld
  rw [keysRead_of_range _ _ h0 h1]
  cases s.1.keys ⟨key.toNat, by omega⟩
  · exact ⟨s, by simp, rfl, rfl, rfl, rfl, rfl, hs⟩
  · refine ⟨(({ s.1 with cam := ops.processKeyboard s.1.cam d s.1.deltaTime } : Globals Cam),
      s.2 ++ [Call.processKeyboard d s.1.deltaTime]), by simp, rfl, rfl, rfl, rfl, rfl, ?_⟩
    intro c hc
    rcases List.mem_append.1 hc with h | h
    · exact hs c h
    · exact ⟨d, List.mem_singleton.1 h⟩

theorem clampLow (x : ℚ) : (if x < 0 then 0 else x) = max 0 x := by
  split_ifs with h
  · exact (max_eq_left h.le).symm
  · exact (max_eq_right (not_lt.1 h)).symm

theorem clampHigh (x : ℚ) : (if x > 1 then 1 else x) = min 1 x := by
  split_ifs with h
  · exact (min_eq_left (le_of_lt h)).symm
  · exact (min_eq_right (not_lt.1 h)).symm

/-- The closed form of the `uCross` update. -/
theorem updateCross_eq (keys : Fin 1024 → Bool) (u : ℚ) :
    ∃ left right : Bool,
      keysRead keys GLFW_KEY_LEFT = some left ∧ keysRead keys GLFW_KEY_RIGHT = some right ∧
      updateCross keys u =
        some (min 1 (max 0 (u - (if left then 1 / 10 else 0)) + (if right then 1 / 10 else 0))) := by
  have hl := keysRead_of_range keys GLFW_KEY_LEFT (by decide) (by decide)
  have hr := keysRead_of_range keys GLFW_KEY_RIGHT (by decide) (by decide)
  refine ⟨_, _, hl, hr, ?_⟩
  unfold updateCross
  rw [hl, hr]
  simp only [Option.some_bind, Option.map_some', clampLow, clampHigh]
  congr 2
  cases keys ⟨GLFW_KEY_LEFT.toNat, by decide⟩ <;>
  cases keys ⟨GLFW_KEY_RIGHT.toNat, by decide⟩ <;> simp

theorem updateCross_range (keys : Fin 1024 → Bool) (u v : ℚ)
    (h : updateCross keys u = some v) : 0 ≤ v ∧ v ≤ 1 := by
  obtain ⟨left, right, _, _, he⟩ := updateCross_eq keys u
  rw [he] at h
  injection h with h
  subst h
  refine ⟨le_min (by norm_num) (add_nonneg (le_max_left _ _) ?_), min_le_left _ _⟩
  cases right <;> norm_num

theorem calculateCameraMovement_frame (ops : CameraOps Cam View) (g : Globals Cam) :
    ∃ (r : Globals Cam × List (Call View)) (u : ℚ),
      updateCross g.keys g.uCross = some u ∧
      calculateCameraMovement ops g = some r ∧ r.1.uCross = u ∧
      r.1.deltaTime = g.deltaTime ∧ r.1.lastFrame = g.lastFrame ∧
      r.1.windowShouldClose = g.windowShouldClose ∧ r.1.keys = g.keys ∧
      ∀ c ∈ r.2, ∃ d, c = Call.processKeyboard d g.deltaTime := by
  obtain ⟨left, right, _, _, hu⟩ := updateCross_eq g.keys g.uCross
  obtain ⟨s1, e1, k1, d1, l1, u1, w1, c1⟩ :=
    moveIfHeld_frame ops GLFW_KEY_W Camera_Movement.FORWARD
      (({ g with uCross := min 1 (max 0 (g.uCross - (if left then 1 / 10 else 0)) +
          (if right then 1 / 10 else 0)) } : Globals Cam), ([] : List (Call View)))
      (by decide) (by decide) (by simp)
  obtain ⟨s2, e2, k2, d2, l2, u2, w2, c2⟩ :=
    moveIfHeld_frame ops GLFW_KEY_S Camera_Movement.BACKWARD s1 (by decide) (by decide) c1
  obtain ⟨s3, e3, k3, d3, l3, u3, w3, c3⟩ :=
    moveIfHeld_frame ops GLFW_KEY_A Camera_Movement.LEFT s2 (by decide) (by decide) c2
  obtain ⟨s4, e4, k4, d4, l4, u4, w4, c4⟩ :=
    moveIfHeld_frame ops GLFW_KEY_D Camera_Movement.RIGHT s3 (by decide) (by decide) c3
  have hd : s4.1.deltaTime = g.deltaTime := by rw [d4, d3, d2, d1]
  refine ⟨s4, _, hu, ?_, ?_, hd, ?_, ?_, ?_, ?_⟩
  · unfold calculateCameraMovement
    rw [hu]
    simp only [Option.some_bind, e1, e2, e3, e4]
  · rw [u4, u3, u2, u1]
  · rw [l4, l3, l2, l1]
  · rw [w4, w3, w2, w1]
  · rw [k4, k3, k2, k1]
  · rw [← hd]
    exact c4

theorem drawLoop_ten (view : View) :
    drawLoop view 0 10 = some (List.flatten (List.ofFn fun i : Fin 10 =>
      [Call.setUniform4x4Matrix "uModelViewProjection"
          ⟨projection, view, ⟨cubePositions.get i, 20 * ((i : Nat) : ℚ), ⟨1.0, 0.3, 0.5⟩⟩⟩,
        Call.glDrawArrays 0 36])) := by
  rfl

/-- The render-loop body always completes, and its calls are: the poll with the
callbacks it runs, the clock read, the camera moves, the fixed prologue, the
ten cube draws and the fixed epilogue. -/
theorem frame_eq (ops : CameraOps Cam View) (g : Globals Cam) (f : FrameInput) :
    ∃ r1 r3 : Globals Cam × List (Call View),
      pollEvents ops g f.events = some r1 ∧
      calculateCameraMovement ops
        { r1.1 with deltaTime := f.time - r1.1.lastFrame, lastFrame := f.time } = some r3 ∧
      frame ops g f = some
        { globals := r3.1
          calls :=
            [Call.glfwPollEvents] ++ r1.2 ++ [Call.glfwGetTime] ++ r3.2 ++
            [Call.api "glClearColor", Call.api "glClear", Call.programBegin,
              Call.api "glActiveTexture", Call.imageBind 0,
              Call.setUniformSampler2D "tex0" 0,
              Call.api "glActiveTexture", Call.imageBind 1,
              Call.setUniformSampler2D "tex1" 1,
              Call.setUniform1f "uCross" r3.1.uCross,
              Call.api "glBindVertexArray"] ++
            List.flatten (List.ofFn fun i : Fin 10 =>
              [Call.setUniform4x4Matrix "uModelViewProjection"
                  ⟨projection, ops.getViewMatrix r3.1.cam,
                    ⟨cubePositions.get i, 20 * ((i : Nat) : ℚ), ⟨1.0, 0.3, 0.5⟩⟩⟩,
                Call.glDrawArrays 0 36]) ++
            [Call.api "glBindVertexArray", Call.imageUnbind 0, Call.imageUnbind 1,
              Call.programEnd, Call.glfwSwapBuffers] } := by
  obtain ⟨r1, h1, _⟩ := pollEvents_frame ops f.events g
  obtain ⟨r3, _, _, h3, _⟩ := calculateCameraMovement_frame ops
    { r1.1 with deltaTime := f.time - r1.1.lastFrame, lastFrame := f.time }
  refine ⟨r1, r3, h1, h3, ?_⟩
  unfold frame
  rw [h1]
  simp only [Option.some_bind]
  rw [h3]
  simp only [Option.some_bind, drawLoop_ten, Option.map_some']

/-- The render loop always completes on a finite supply of inputs. -/
theorem renderLoop_total (ops : CameraOps Cam View) :
    ∀ (fs : List FrameInput) (g : Globals Cam), ∃ r, renderLoop ops g fs = some r
  | [], g => ⟨_, rfl⟩
  | f :: fs, g => by
    unfold renderLoop
    by_cases hc : g.windowShouldClose = true
    · rw [if_pos hc]; exact ⟨_, rfl⟩
    · rw [if_neg hc]
      obtain ⟨r1, r3, _, _, hf⟩ := frame_eq ops g f
      rw [hf]
      obtain ⟨r, hr⟩ := renderLoop_total ops fs r3.1
      simp only [Option.some_bind, hr, Option.map_some']
      exact ⟨_, rfl⟩

/-- Every iteration of the render loop is a run of the loop body. -/
theorem renderLoop_mem (ops : CameraOps Cam View) :
    ∀ (fs : List FrameInput) (g : Globals Cam) (r : LoopResult Cam View),
      renderLoop ops g fs = some r →
      ∀ it ∈ r.iterations, ∃ g1 f, frame ops g1 f = some it
  | [], g, r, h => by
    simp only [renderLoop, Option.some.injEq] at h
    subst h
    simp
  | f :: fs, g, r, h => by
    unfold renderLoop at h
    by_cases hc : g.windowShouldClose = true
    · rw [if_pos hc] at h
      simp only [Option.some.injEq] at h
      subst h
      simp
    · rw [if_neg hc] at h
      obtain ⟨r1, r3, _, _, hf⟩ := frame_eq ops g f
      rw [hf] at h
      obtain ⟨r2, hr⟩ := renderLoop_total ops fs r3.1
      simp only [Option.some_bind, hr, Option.map_some', Option.some.injEq] at h
      subst h
      intro it hit
      rcases List.mem_cons.1 hit with h0 | h0
      · exact ⟨g, f, by rw [hf, h0]⟩
      · exact renderLoop_mem ops fs _ r2 hr it h0

/-- A successful start of `main` is the render loop run from the initial globals. -/
theorem main_ok (ops : CameraOps Cam View) (cam0 : Cam) (env : Env)
    (hw : env.windowCreated = true) (hg : env.glewInit = GLEW_OK) :
    ∃ r, renderLoop ops (Globals.init cam0) env.frames = some r ∧
      main ops cam0 env = some
        { startup := callsToWindow ++ callsToGlew ++ callsToLoop
          iterations := r.iterations
          shutdown := if r.exited then callsAfterLoop else []
          exit := if r.exited then some 0 else none } := by
  obtain ⟨r, hr⟩ := renderLoop_total ops env.frames (Globals.init cam0)
  refine ⟨r, hr, ?_⟩
  unfold main
  simp [hw, hg, hr]

/-- The run of `main` when no window could be created. -/
theorem main_no_window (ops : CameraOps Cam View) (cam0 : Cam) (env : Env)
    (hw : env.windowCreated = false) :
    main ops cam0 env = some
      { startup := callsToWindow ++ [Call.print "Failed to create GLFW window.",
          Call.api "glfwTerminate"]
        iterations := []
        shutdown := []
        exit := some (-1) } := by
  unfold main
  simp [hw]

/-- The run of `main` when GLEW could not be initialised. -/
theorem main_no_glew (ops : CameraOps Cam View) (cam0 : Cam) (env : Env)
    (hw : env.windowCreated = true) (hg : env.glewInit ≠ GLEW_OK) :
    main ops cam0 env = some
      { startup := callsToWindow ++ callsToGlew ++ [Call.print "Failed to initialize GLEW."]
        iterations := []
        shutdown := []
        exit := some (-1) } := by
  unfold main
  simp [hw, hg]

/-- A run of `main` always has an outcome, and its iterations are runs of the
loop body. -/
theorem main_total (ops : CameraOps Cam View) (cam0 : Cam) (env : Env) :
    ∃ run, main ops cam0 env = some run ∧
      ∀ it ∈ run.iterations, ∃ g1 f, frame ops g1 f = some it := by
  by_cases hw : env.windowCreated = true
  · by_cases hg : env.glewInit = GLEW_OK
    · obtain ⟨r, hr, hm⟩ := main_ok ops cam0 env hw hg
      exact ⟨_, hm, renderLoop_mem ops _ _ r hr⟩
    · exact ⟨_, main_no_glew ops cam0 env hw hg, by simp⟩
  · exact ⟨_, main_no_window ops cam0 env (by simpa using hw), by simp⟩

/-- The calls of one loop body, by kind: what a call of the body can be. -/
theorem frame_calls (ops : CameraOps Cam View) (g : Globals Cam) (f : FrameInput)
    (it : Iteration Cam View) (h : frame ops g f = some it) (c : Call View)
    (hc : c ∈ it.calls) :
    Call.isInput c = true ∨ (∃ d, c = Call.processKeyboard d it.globals.deltaTime) ∨
    c = Call.setUniform1f "uCross" it.globals.uCross ∨
    (∃ i : Fin 10, c = Call.setUniform4x4Matrix "uModelViewProjection"
      ⟨projection, ops.getViewMatrix it.globals.cam,
        ⟨cubePositions.get i, 20 * ((i : Nat) : ℚ), ⟨1.0, 0.3, 0.5⟩⟩⟩) ∨
    c = Call.glDrawArrays 0 36 ∨
    c ∈ [Call.glfwPollEvents, Call.glfwGetTime, Call.api "glClearColor", Call.api "glClear",
      Call.programBegin, Call.api "glActiveTexture", Call.imageBind 0, Call.imageBind 1,
      Call.setUniformSampler2D "tex0" 0, Call.setUniformSampler2D "tex1" 1,
      Call.api "glBindVertexArray", Call.imageUnbind 0, Call.imageUnbind 1,
      Call.programEnd, Call.glfwSwapBuffers] := by
  obtain ⟨r1, r3, h1, h3, hf⟩ := frame_eq ops g f
  obtain ⟨p1, hp1, _, _, hin⟩ := pollEvents_frame ops f.events g
  obtain ⟨p3, u, _, hp3, _, hd, _, _, _, hkb⟩ := calculateCameraMovement_frame ops
    ({ r1.1 with deltaTime := f.time - r1.1.lastFrame, lastFrame := f.time } : Globals Cam)
  rw [h1] at hp1
  rw [h3] at hp3
  injection hp1 with hp1
  injection hp3 with hp3
  subst hp1 hp3
  rw [hf] at h
  injection h with h
  subst h
  simp only [List.mem_append, List.mem_flatten, List.mem_ofFn, List.mem_cons,
    List.mem_singleton, List.not_mem_nil, or_false, exists_exists_eq_and] at hc
  rcases hc with ((((((hc | hc) | hc) | hc) | hc) | hc) | hc)
  · right; right; right; right; right; simp [hc]
  · exact Or.inl (hin c hc)
  · right; right; right; right; right; simp [hc]
  · obtain ⟨d, hd2⟩ := hkb c hc
    exact Or.inr (Or.inl ⟨d, by rw [hd2, hd]⟩)
  · rcases hc with hc | hc | hc | hc | hc | hc | hc | hc | hc | hc | hc
    all_goals first
      | exact Or.inr (Or.inr (Or.inl hc))
      | (right; right; right; right; right; simp [hc])
  · obtain ⟨l, ⟨i, rfl⟩, hi⟩ := hc
    simp only [List.mem_cons, List.mem_singleton, List.not_mem_nil, or_false] at hi
    rcases hi with hi | hi
    · exact Or.inr (Or.inr (Or.inr (Or.inl ⟨i, hi⟩)))
    · exact Or.inr (Or.inr (Or.inr (Or.inr (Or.inl hi))))
  · right; right; right; right; right
    rcases hc with hc | hc | hc | hc | hc <;> simp [hc]

/-- What one loop body does to the frame clock, the mix factor and the close flag. -/
theorem frame_globals (ops : CameraOps Cam View) (g : Globals Cam) (f : FrameInput)
    (it : Iteration Cam View) (h : frame ops g f = some it) :
    it.globals.lastFrame = f.time ∧ it.globals.deltaTime = f.time - g.lastFrame ∧
    0 ≤ it.globals.uCross ∧ it.globals.uCross ≤ 1 ∧
    ∃ r1, pollEvents ops g f.events = some r1 ∧
      it.globals.windowShouldClose = r1.1.windowShouldClose := by
  obtain ⟨r1, r3, h1, h3, hf⟩ := frame_eq ops g f
  obtain ⟨p1, hp1, hl, _, _⟩ := pollEvents_frame ops f.events g
  obtain ⟨p3, u, hu, hp3, hu2, hd, hlf, hw, _, _⟩ := calculateCameraMovement_frame ops
    ({ r1.1 with deltaTime := f.time - r1.1.lastFrame, lastFrame := f.time } : Globals Cam)
  rw [h1] at hp1
  rw [h3] at hp3
  injection hp1 with hp1
  injection hp3 with hp3
  subst hp1 hp3
  rw [hf] at h
  injection h with h
  subst h
  have hrange := updateCross_range _ _ _ hu
  refine ⟨hlf, ?_, ?_, ?_, r1, h1, hw⟩
  · rw [hd]
    simp only [hl]
  · rw [hu2]; exact hrange.1
  · rw [hu2]; exact hrange.2

/-- The one call `key_callback` can make. -/
theorem key_callback_calls (g : Globals Cam) (key scancode action mode : Int)
    (r : Globals Cam × List (Call View))
    (h : key_callback g key scancode action mode = some r) :
    r.2 = if key = GLFW_KEY_ESCAPE ∧ action = GLFW_PRESS then
      [Call.glfwSetWindowShouldClose] else [] := by
  unfold key_callback at h
  dsimp only at h
  generalize hr :
    (if key = GLFW_KEY_ESCAPE ∧ action = GLFW_PRESS then
      (({ g with windowShouldClose := true } : Globals Cam),
        ([Call.glfwSetWindowShouldClose] : List (Call View)))
    else (g, [])) = r0 at h
  have hr1 : r0.2 = if key = GLFW_KEY_ESCAPE ∧ action = GLFW_PRESS then
      [Call.glfwSetWindowShouldClose] else [] := by
    subst hr
    split <;> rfl
  rw [← hr1]
  by_cases hk : key ≥ 0 ∧ key < 1024
  · rw [if_pos hk] at h
    by_cases hp : action = GLFW_PRESS
    · rw [if_pos hp, keysWrite_of_range _ _ _ hk.1 hk.2] at h
      injection h with h
      rw [← h]
    · rw [if_neg hp] at h
      by_cases hl : action = GLFW_RELEASE
      · rw [if_pos hl, keysWrite_of_range _ _ _ hk.1 hk.2] at h
        injection h with h
        rw [← h]
      · rw [if_neg hl] at h
        injection h with h
        rw [← h]
  · rw [if_neg hk] at h
    injection h with h
    rw [← h]

/-- The last call of a loop body is the buffer swap. -/
theorem frame_last (ops : CameraOps Cam View) (g : Globals Cam) (f : FrameInput)
    (it : Iteration Cam View) (h : frame ops g f = some it) :
    it.calls.getLast? = some Call.glfwSwapBuffers := by
  obtain ⟨r1, r3, _, _, hf⟩ := frame_eq ops g f
  rw [hf] at h
  injection h with h
  subst h
  show (_ ++ [Call.api "glBindVertexArray", Call.imageUnbind 0, Call.imageUnbind 1,
    Call.programEnd, Call.glfwSwapBuffers]).getLast? = _
  rw [List.getLast?_append]
  rfl

theorem drawsWith_inert (cur : Option (String × Mvp View)) :
    ∀ l1 l2 : List (Call View),
      (∀ c ∈ l1, Call.isInput c = true ∨ ∃ d dt, c = Call.processKeyboard d dt) →
      drawsWith cur (l1 ++ l2) = drawsWith cur l2
  | [], _, _ => rfl
  | c :: cs, l2, h => by
    have ih := drawsWith_inert cur cs l2 fun d hd => h d (List.mem_cons_of_mem _ hd)
    rcases h c (List.mem_cons_self _ _) with hc | ⟨d, dt, hc⟩
    · cases c <;> simp_all [Call.isInput, drawsWith]
    · subst hc
      simpa [drawsWith] using ih

/-- The draws of one loop body: ten, the `i`-th with the matrix built from
`cubePositions[i]` and the angle `20 * i`, 36 vertices each. -/
theorem frame_draws (ops : CameraOps Cam View) (g : Globals Cam) (f : FrameInput)
    (it : Iteration Cam View) (h : frame ops g f = some it) :
    drawsWith none it.calls = List.ofFn fun i : Fin 10 =>
      (some ("uModelViewProjection",
        (⟨projection, ops.getViewMatrix it.globals.cam,
          ⟨cubePositions.get i, 20 * ((i : Nat) : ℚ), ⟨1.0, 0.3, 0.5⟩⟩⟩ : Mvp View)), 36) := by
  obtain ⟨r1, r3, h1, h3, hf⟩ := frame_eq ops g f
  obtain ⟨p1, hp1, _, _, hin⟩ := pollEvents_frame ops f.events g
  obtain ⟨p3, u, _, hp3, _, _, _, _, _, hkb⟩ := calculateCameraMovement_frame ops
    ({ r1.1 with deltaTime := f.time - r1.1.lastFrame, lastFrame := f.time } : Globals Cam)
  rw [h1] at hp1
  rw [h3] at hp3
  injection hp1 with hp1
  injection hp3 with hp3
  subst hp1 hp3
  rw [hf] at h
  injection h with h
  subst h
  simp only [List.append_assoc]
  show drawsWith none (r1.2 ++ _) = _
  rw [drawsWith_inert none r1.2 _ fun c hc => Or.inl (hin c hc)]
  show drawsWith none (r3.2 ++ _) = _
  rw [drawsWith_inert none r3.2 _ fun c hc => by
    obtain ⟨d, hd⟩ := hkb c hc
    exact Or.inr ⟨d, _, hd⟩]
  rfl

theorem moveIfHeld_cam (ops : CameraOps Cam View)
    (hid : ∀ c d t, ops.processKeyboard c d t = c) (key : Int) (d : Camera_Movement)
    (s r : Globals Cam × List (Call View)) (h : moveIfHeld ops key d s = some r) :
    r.1.cam = s.1.cam := by
  unfold moveIfHeld at h
  cases hk : keysRead s.1.keys key with
  | none => rw [hk] at h; cases h
  | some b =>
    rw [hk] at h
    cases b <;> simp only [Option.map_some', Option.some.injEq] at h <;> subst h
    · simp
    · simp [hid]

/-- A camera whose `processKeyboard` is the identity is not changed by
`calculateCameraMovement`. -/
theorem calculateCameraMovement_cam (ops : CameraOps Cam View)
    (hid : ∀ c d t, ops.processKeyboard c d t = c) (g : Globals Cam)
    (r : Globals Cam × List (Call View)) (h : calculateCameraMovement ops g = some r) :
    r.1.cam = g.cam := by
  unfold calculateCameraMovement at h
  simp only [Option.bind_eq_some] at h
  obtain ⟨u, _, s1, h1, s2, h2, s3, h3, h4⟩ := h
  rw [moveIfHeld_cam ops hid _ _ _ _ h4, moveIfHeld_cam ops hid _ _ _ _ h3,
    moveIfHeld_cam ops hid _ _ _ _ h2, moveIfHeld_cam ops hid _ _ _ _ h1]

end Facts

/-! ## The key table (`key_callback`) -/

section KeyTable

variable {Cam View : Type}

/-- C9: `key_callback` only records pressed/released state.  It always completes
(no index outside `keys` is written).  For a key in `[0, 1024)`, `GLFW_PRESS`
leaves `keys[key] = true`, `GLFW_RELEASE` leaves `keys[key] = false`, any other
action leaves `keys[key]` as it was, and every other entry is unchanged.  For a
key outside `[0, 1024)`, such as `GLFW_KEY_UNKNOWN`, the whole table is
unchanged.  `GLFW_REPEAT` is one of the other actions. -/
theorem key_callback_records_keys (g : Globals Cam) (key scancode action mode : Int) :
    ∃ r : Globals Cam × List (Call View),
      key_callback g key scancode action mode = some r ∧
      (∀ h : 0 ≤ key ∧ key < 1024,
        (action = GLFW_PRESS → r.1.keys ⟨key.toNat, by omega⟩ = true) ∧
        (action = GLFW_RELEASE → r.1.keys ⟨key.toNat, by omega⟩ = false) ∧
        (action ≠ GLFW_PRESS → action ≠ GLFW_RELEASE →
          r.1.keys ⟨key.toNat, by omega⟩ = g.keys ⟨key.toNat, by omega⟩) ∧
        ∀ j : Fin 1024, ((j : Nat) : Int) ≠ key → r.1.keys j = g.keys j) ∧
      (¬ (0 ≤ key ∧ key < 1024) → r.1.keys = g.keys) ∧
      GLFW_KEY_UNKNOWN < 0 ∧ GLFW_REPEAT ≠ GLFW_PRESS ∧ GLFW_REPEAT ≠ GLFW_RELEASE := by
  unfold key_callback
  dsimp only
  generalize hr :
    (if key = GLFW_KEY_ESCAPE ∧ action = GLFW_PRESS then
      (({ g with windowShouldClose := true } : Globals Cam),
        ([Call.glfwSetWindowShouldClose] : List (Call View)))
    else (g, [])) = r
  have hr1 : r.1.keys = g.keys := by
    subst hr
    split <;> rfl
  have hne : ∀ (h : 0 ≤ key ∧ key < 1024) (j : Fin 1024), ((j : Nat) : Int) ≠ key →
      j ≠ ⟨key.toNat, by omega⟩ := by
    intro h j hj hjk
    apply hj
    rw [hjk]
    exact Int.toNat_of_nonneg h.1
  by_cases hk : key ≥ 0 ∧ key < 1024
  · rw [if_pos hk]
    by_cases hp : action = GLFW_PRESS
    · rw [if_pos hp, keysWrite_of_range _ _ _ hk.1 hk.2]
      refine ⟨_, rfl, fun h => ⟨fun _ => ?_, fun hl => ?_, fun hnp => absurd hp hnp,
        fun j hj => ?_⟩, fun h => absurd hk h, by decide, by decide, by decide⟩
      · simp
      · rw [hp] at hl
        exact absurd hl (by decide)
      · simp only [Option.map_some']
        rw [Function.update_noteq (hne h j hj), hr1]
    · rw [if_neg hp]
      by_cases hl : action = GLFW_RELEASE
      · rw [if_pos hl, keysWrite_of_range _ _ _ hk.1 hk.2]
        refine ⟨_, rfl, fun h => ⟨fun hp2 => absurd hp2 hp, fun _ => ?_,
          fun _ hnl => absurd hl hnl, fun j hj => ?_⟩, fun h => absurd hk h, by decide, by decide, by decide⟩
        · simp
        · simp only [Option.map_some']
          rw [Function.update_noteq (hne h j hj), hr1]
      · rw [if_neg hl]
        refine ⟨_, rfl, fun h => ⟨fun hp2 => absurd hp2 hp, fun hl2 => absurd hl2 hl,
          fun _ _ => by rw [hr1], fun j _ => by rw [hr1]⟩, fun _ => hr1, by decide, by decide,
          by decide⟩
  · rw [if_neg hk]
    exact ⟨_, rfl, fun h => absurd h hk, fun _ => hr1, by decide, by decide, by decide⟩

end KeyTable

/-! ## The texture mix factor (`calculateCameraMovement`) -/

section MixFactor

variable {Cam View : Type}

/-- C10: after every call of `calculateCameraMovement`, whatever `uCross` and
the key table were before, `uCross` lies in `[0, 1]`.  Both clamps run on every
call: with neither arrow key held the result is `min 1 (max 0 uCross)`, which
is `uCross` itself when that was in `[0, 1]`; with only LEFT held it is
`max 0 (uCross - 0.1)` (for `uCross ≤ 1`); with only RIGHT held it is
`min 1 (uCross + 0.1)` (for `0 ≤ uCross`).  Hence every value that a render-loop
iteration of `main` passes to `setUniform1f` is the `uCross` uniform with a
value in `[0, 1]`. -/
theorem uCross_stays_in_unit_interval (ops : CameraOps Cam View) (g : Globals Cam)
    (cam0 : Cam) (env : Env) :
    (∃ r, calculateCameraMovement ops g = some r ∧ 0 ≤ r.1.uCross ∧ r.1.uCross ≤ 1 ∧
      (keysRead g.keys GLFW_KEY_LEFT = some true →
        keysRead g.keys GLFW_KEY_RIGHT = some false →
          r.1.uCross = min 1 (max 0 (g.uCross - 1 / 10)) ∧
          (g.uCross ≤ 1 → r.1.uCross = max 0 (g.uCross - 1 / 10))) ∧
      (keysRead g.keys GLFW_KEY_LEFT = some false →
        keysRead g.keys GLFW_KEY_RIGHT = some true →
          r.1.uCross = min 1 (max 0 g.uCross + 1 / 10) ∧
          (0 ≤ g.uCross → r.1.uCross = min 1 (g.uCross + 1 / 10))) ∧
      (keysRead g.keys GLFW_KEY_LEFT = some false →
        keysRead g.keys GLFW_KEY_RIGHT = some false →
          r.1.uCross = min 1 (max 0 g.uCross) ∧
          (0 ≤ g.uCross → g.uCross ≤ 1 → r.1.uCross = g.uCross))) ∧
    (∃ run, main ops cam0 env = some run ∧
      ∀ it ∈ run.iterations, ∀ name v, Call.setUniform1f name v ∈ it.calls →
        name = "uCross" ∧ 0 ≤ v ∧ v ≤ 1) := by
  constructor
  · obtain ⟨r, u, hu, hr, hru, _⟩ := calculateCameraMovement_frame ops g
    obtain ⟨left, right, hl, hrt, he⟩ := updateCross_eq g.keys g.uCross
    have hrange := updateCross_range _ _ _ hu
    rw [he] at hu
    injection hu with hu
    refine ⟨r, hr, by rw [hru]; exact hrange.1, by rw [hru]; exact hrange.2, ?_, ?_, ?_⟩
    · intro h1 h2
      rw [hl] at h1
      rw [hrt] at h2
      injection h1 with h1
      injection h2 with h2
      subst h1 h2
      have h3 : r.1.uCross = min 1 (max 0 (g.uCross - 1 / 10)) := by
        rw [hru, ← hu]; simp
      refine ⟨h3, fun hle => ?_⟩
      rw [h3]
      exact min_eq_right (max_le (by norm_num) (by linarith))
    · intro h1 h2
      rw [hl] at h1
      rw [hrt] at h2
      injection h1 with h1
      injection h2 with h2
      subst h1 h2
      have h3 : r.1.uCross = min 1 (max 0 g.uCross + 1 / 10) := by
        rw [hru, ← hu]; simp
      refine ⟨h3, fun hge => ?_⟩
      rw [h3, max_eq_right hge]
    · intro h1 h2
      rw [hl] at h1
      rw [hrt] at h2
      injection h1 with h1
      injection h2 with h2
      subst h1 h2
      have h3 : r.1.uCross = min 1 (max 0 g.uCross) := by
        rw [hru, ← hu]; simp
      refine ⟨h3, fun hge hle => ?_⟩
      rw [h3, max_eq_right hge, min_eq_right hle]
  · obtain ⟨run, hrun, hits⟩ := main_total ops cam0 env
    refine ⟨run, hrun, fun it hit name v hc => ?_⟩
    obtain ⟨g1, f, hf⟩ := hits it hit
    obtain ⟨_, _, h0, h1, _⟩ := frame_globals ops g1 f it hf
    rcases frame_calls ops g1 f it hf _ hc with h | ⟨d, h⟩ | h | ⟨i, h⟩ | h | h
    · simp [Call.isInput] at h
    · cases h
    · injection h with hn hv
      subst hn hv
      exact ⟨rfl, h0, h1⟩
    · cases h
    · cases h
    · simp at h

end MixFactor

/-! ## Start-up failures (`main`) -/

section Startup

variable {Cam View : Type}

/-- C2: when window creation fails or GLEW initialisation fails, `main` writes a
diagnostic line (`Failed to create GLFW window.`, respectively
`Failed to initialize GLEW.`), returns `-1`, which is not zero, and runs no
render-loop iteration: its calls contain no shader setup, no texture load, no
event poll, no uniform upload, no draw and no buffer swap. -/
theorem main_fails_fast (ops : CameraOps Cam View) (cam0 : Cam) (env : Env)
    (h : env.windowCreated = false ∨ env.glewInit ≠ GLEW_OK) :
    ∃ run, main ops cam0 env = some run ∧
      run.exit = some (-1) ∧ (-1 : Int) ≠ 0 ∧
      run.iterations = [] ∧
      (env.windowCreated = false → Call.print "Failed to create GLFW window." ∈ run.trace) ∧
      (env.windowCreated = true → Call.print "Failed to initialize GLEW." ∈ run.trace) ∧
      ∀ c ∈ run.trace, Call.isRender c = false := by
  by_cases hw : env.windowCreated = true
  · have hg : env.glewInit ≠ GLEW_OK := by
      rcases h with h | h
      · rw [hw] at h; cases h
      · exact h
    refine ⟨_, main_no_glew ops cam0 env hw hg, rfl, by decide, rfl, ?_, ?_, ?_⟩
    · intro hf; rw [hw] at hf; cases hf
    · intro _; simp [Run.trace, callsToWindow, callsToGlew]
    · intro c hc
      simp only [Run.trace, callsToWindow, callsToGlew, List.map_nil, List.flatten_nil,
        List.append_nil, List.mem_append, List.mem_cons, List.mem_singleton,
        List.not_mem_nil, or_false] at hc
      rcases hc with (hc | hc) | hc
      · rcases hc with hc | hc | hc | hc | hc | hc | hc | hc <;> (subst hc; rfl)
      · rcases hc with hc | hc | hc | hc | hc | hc <;> (subst hc; rfl)
      · subst hc; rfl
  · have hw2 : env.windowCreated = false := by simpa using hw
    refine ⟨_, main_no_window ops cam0 env hw2, rfl, by decide, rfl, ?_, ?_, ?_⟩
    · intro _; simp [Run.trace, callsToWindow]
    · intro ht; exact absurd ht hw
    · intro c hc
      simp only [Run.trace, callsToWindow, List.map_nil, List.flatten_nil,
        List.append_nil, List.mem_append, List.mem_cons, List.mem_singleton,
        List.not_mem_nil, or_false] at hc
      rcases hc with hc | hc
      · rcases hc with hc | hc | hc | hc | hc | hc | hc | hc <;> (subst hc; rfl)
      · rcases hc with hc | hc <;> (subst hc; rfl)

/-- A run in which no window could be created. -/
theorem main_fails_fast_witness :
    ∃ run, main zoomOps ZoomCamera.default ⟨false, 0, []⟩ = some run ∧
      run.exit = some (-1) ∧ (-1 : Int) ≠ 0 ∧
      run.iterations = [] ∧
      ((false : Bool) = false → Call.print "Failed to create GLFW window." ∈ run.trace) ∧
      ((false : Bool) = true → Call.print "Failed to initialize GLEW." ∈ run.trace) ∧
      ∀ c ∈ run.trace, Call.isRender c = false :=
  main_fails_fast zoomOps ZoomCamera.default ⟨false, 0, []⟩ (Or.inl rfl)

end Startup

/-! ## The close flag and the render loop -/

section CloseFlag

variable {Cam View : Type}

/-- C3: `key_callback` sets the window-close flag exactly when it is called with
`GLFW_KEY_ESCAPE` and `GLFW_PRESS`: it calls `glfwSetWindowShouldClose` if and
only if so, and a flag that was clear is set afterwards if and only if so.  The
render loop tests the flag once, before each iteration: when the flag is clear
at the test and is set while the iteration polls its events, the iteration
still runs to its end, the buffer swap being its last call, and it is the last
iteration, whatever inputs are still to come; when the flag is still clear
after the poll, the loop goes on from the state the iteration leaves. -/
theorem close_flag_ends_loop_after_iteration :
    (∀ (g : Globals Cam) (key scancode action mode : Int),
      ∃ r : Globals Cam × List (Call View),
        key_callback g key scancode action mode = some r ∧
        (Call.glfwSetWindowShouldClose ∈ r.2 ↔
          key = GLFW_KEY_ESCAPE ∧ action = GLFW_PRESS) ∧
        (g.windowShouldClose = false →
          (r.1.windowShouldClose = true ↔ key = GLFW_KEY_ESCAPE ∧ action = GLFW_PRESS))) ∧
    (∀ (ops : CameraOps Cam View) (g : Globals Cam) (f : FrameInput) (fs : List FrameInput),
      g.windowShouldClose = false →
      ∃ r1 it, pollEvents ops g f.events = some r1 ∧ frame ops g f = some it ∧
        it.calls.getLast? = some Call.glfwSwapBuffers ∧
        (r1.1.windowShouldClose = true →
          renderLoop ops g (f :: fs) = some ⟨[it], it.globals, true⟩) ∧
        (r1.1.windowShouldClose = false →
          renderLoop ops g (f :: fs) =
            (renderLoop ops it.globals fs).map fun r =>
              ⟨it :: r.iterations, r.final, r.exited⟩)) := by
  constructor
  · intro g key scancode action mode
    obtain ⟨r, hr, hw, _⟩ := @key_callback_frame Cam View g key scancode action mode
    have hc := key_callback_calls g key scancode action mode r hr
    refine ⟨r, hr, ?_, ?_⟩
    · rw [hc]
      by_cases he : key = GLFW_KEY_ESCAPE ∧ action = GLFW_PRESS
      · simp [he]
      · rw [if_neg he]
        simp [he]
    · intro hg
      rw [hw, hg]
      simp
  · intro ops g f fs hg
    obtain ⟨r1, r3, h1, h3, hf⟩ := frame_eq ops g f
    obtain ⟨_, _, _, _, r1b, h1b, hw⟩ := frame_globals ops g f _ hf
    rw [h1] at h1b
    injection h1b with h1b
    subst h1b
    refine ⟨r1, _, h1, hf, frame_last ops g f _ hf, ?_, ?_⟩
    · intro hset
      have hw2 : r3.1.windowShouldClose = true := by rw [← hset]; exact hw
      rw [renderLoop, hg, hf]
      cases fs with
      | nil => simp [renderLoop, hw2]
      | cons f2 fs2 => simp [renderLoop, hw2]
    · intro _
      rw [renderLoop, hg, hf]
      simp

/-- Escape is pressed before the first of two frames: the first iteration runs
through its buffer swap and the second never starts. -/
theorem close_flag_ends_loop_after_iteration_witness :
    ∃ it : Iteration ZoomCamera Unit,
      renderLoop zoomOps (Globals.init ZoomCamera.default)
        [⟨[Event.key GLFW_KEY_ESCAPE 0 GLFW_PRESS 0], 0⟩, ⟨[], 1⟩] =
          some ⟨[it], it.globals, true⟩ ∧
      it.calls.getLast? = some Call.glfwSwapBuffers := by
  obtain ⟨r1, it, h1, _, hl, hset, _⟩ :=
    (@close_flag_ends_loop_after_iteration ZoomCamera Unit).2 zoomOps
      (Globals.init ZoomCamera.default)
      ⟨[Event.key GLFW_KEY_ESCAPE 0 GLFW_PRESS 0], 0⟩ [⟨[], 1⟩] rfl
  refine ⟨it, hset ?_, hl⟩
  obtain ⟨r, hr, _, hw⟩ :=
    (@close_flag_ends_loop_after_iteration ZoomCamera Unit).1
      (Globals.init ZoomCamera.default) GLFW_KEY_ESCAPE 0 GLFW_PRESS 0
  simp only [pollEvents, dispatch, hr, Option.some_bind, Option.map_some',
    Option.some.injEq] at h1
  subst h1
  exact (hw rfl).2 ⟨rfl, rfl⟩

end CloseFlag

/-! ## The shader-program discipline in `main` -/

section ProgramScope

variable {Cam View : Type}

theorem programRun_append (l1 : List (Call View)) :
    ∀ (l2 : List (Call View)) (a : Bool),
      programRun a (l1 ++ l2) = (programRun a l1).bind fun b => programRun b l2 := by
  induction l1 with
  | nil => intro l2 a; rfl
  | cons c cs ih =>
    intro l2 a
    simp only [List.cons_append, programRun]
    cases programStep a c with
    | none => rfl
    | some b => simp only [Option.some_bind]; exact ih l2 b

theorem programRun_inert (a : Bool) :
    ∀ l : List (Call View), (∀ c ∈ l, programStep a c = some a) → programRun a l = some a
  | [], _ => rfl
  | c :: cs, h => by
    simp only [programRun, h c (List.mem_cons_self _ _), Option.some_bind]
    exact programRun_inert a cs fun d hd => h d (List.mem_cons_of_mem _ hd)

/-- One loop body, started with the program inactive, keeps the discipline and
leaves the program inactive. -/
theorem frame_programRun (ops : CameraOps Cam View) (g : Globals Cam) (f : FrameInput)
    (it : Iteration Cam View) (h : frame ops g f = some it) :
    programRun false it.calls = some false := by
  obtain ⟨r1, r3, h1, h3, hf⟩ := frame_eq ops g f
  obtain ⟨p1, hp1, _, _, hin⟩ := pollEvents_frame ops f.events g
  obtain ⟨p3, u, _, hp3, _, _, _, _, _, hkb⟩ := calculateCameraMovement_frame ops
    ({ r1.1 with deltaTime := f.time - r1.1.lastFrame, lastFrame := f.time } : Globals Cam)
  rw [h1] at hp1
  rw [h3] at hp3
  injection hp1 with hp1
  injection hp3 with hp3
  subst hp1 hp3
  rw [hf] at h
  injection h with h
  subst h
  have e0 : programRun false ([Call.glfwPollEvents] : List (Call View)) = some false := rfl
  have e1 : programRun false r1.2 = some false :=
    programRun_inert false _ fun c hc => by
      have := hin c hc
      cases c <;> simp_all [Call.isInput, programStep]
  have e2 : programRun false ([Call.glfwGetTime] : List (Call View)) = some false := rfl
  have e3 : programRun false r3.2 = some false :=
    programRun_inert false _ fun c hc => by
      obtain ⟨d, hd⟩ := hkb c hc
      subst hd
      rfl
  simp only [programRun_append, e0, e1, e2, e3, Option.some_bind]
  rfl

theorem iterations_programRun (ops : CameraOps Cam View) :
    ∀ its : List (Iteration Cam View),
      (∀ it ∈ its, ∃ g1 f, frame ops g1 f = some it) →
      programRun false (its.map Iteration.calls).flatten = some false
  | [], _ => rfl
  | it :: its, h => by
    obtain ⟨g1, f, hf⟩ := h it (List.mem_cons_self _ _)
    simp only [List.map_cons, List.flatten_cons, programRun_append,
      frame_programRun ops g1 f it hf, Option.some_bind]
    exact iterations_programRun ops its fun j hj => h j (List.mem_cons_of_mem _ hj)

/-- C5: over the whole sequence of calls of any run of `main`, with any number
of render-loop iterations, the shader program's `begin` and `end` strictly
alternate starting with `begin`, and every uniform upload
(`setUniformSampler2D`, `setUniform1f`, `setUniform4x4Matrix`) and every draw
call happens while the program is active: the begin/end monitor accepts the
whole sequence, started inactive, and ends inactive. -/
theorem program_calls_well_scoped (ops : CameraOps Cam View) (cam0 : Cam) (env : Env) :
    ∃ run, main ops cam0 env = some run ∧ programRun false run.trace = some false := by
  by_cases hw : env.windowCreated = true
  · by_cases hg : env.glewInit = GLEW_OK
    · obtain ⟨r, hr, hm⟩ := main_ok ops cam0 env hw hg
      refine ⟨_, hm, ?_⟩
      have hits := iterations_programRun ops r.iterations (renderLoop_mem ops _ _ r hr)
      have hs : programRun false
          (callsToWindow ++ callsToGlew ++ callsToLoop : List (Call View)) = some false := rfl
      simp only [Run.trace]
      rw [programRun_append, programRun_append, hs]
      simp only [Option.some_bind, hits]
      cases r.exited <;> rfl
    · exact ⟨_, main_no_glew ops cam0 env hw hg, rfl⟩
  · exact ⟨_, main_no_window ops cam0 env (by simpa using hw), rfl⟩

end ProgramScope

/-! ## The cube draws -/

section Cubes

variable {Cam View : Type}

end Cubes

/-! ## The field of view -/

section FieldOfView

/-- C1 (evaluated on the code): the field of view of the projection in
`uModelViewProjection` is the constant 45 degrees in every draw of every
render-loop iteration, for every camera, every start state and every input;
no scroll input changes it.  At the run whose first iteration receives one
scroll event with `yoffset = 10`, the camera of the spec has zoom 35 when the
cubes are drawn, and the field of view of every draw is still 45. -/
theorem projection_fov_is_constant :
    (∀ (Cam View : Type) (ops : CameraOps Cam View) (cam0 : Cam) (env : Env),
      ∃ run, main ops cam0 env = some run ∧
        ∀ it ∈ run.iterations, ∀ d ∈ drawsWith none it.calls,
          ∃ m : Mvp View, d.1 = some ("uModelViewProjection", m) ∧
            m.projection.fovDeg = 45) ∧
    (∃ run it,
      main zoomOps ZoomCamera.default ⟨true, GLEW_OK, [⟨[Event.scroll 0 10], 0⟩]⟩ = some run ∧
      run.iterations = [it] ∧ it.globals.cam.zoom = 35 ∧
      ∀ d ∈ drawsWith none it.calls,
        ∃ m : Mvp Unit, d.1 = some ("uModelViewProjection", m) ∧
          m.projection.fovDeg = 45 ∧ m.projection.fovDeg ≠ it.globals.cam.zoom) := by
  have key : ∀ (Cam View : Type) (ops : CameraOps Cam View) (g : Globals Cam) (f : FrameInput)
      (it : Iteration Cam View), frame ops g f = some it →
      ∀ d ∈ drawsWith none it.calls,
        ∃ m : Mvp View, d.1 = some ("uModelViewProjection", m) ∧
          m.projection.fovDeg = 45 := by
    intro Cam View ops g f it hf d hd
    rw [frame_draws ops g f it hf, List.mem_ofFn] at hd
    obtain ⟨i, hi⟩ := hd
    subst hi
    exact ⟨_, rfl, rfl⟩
  constructor
  · intro Cam View ops cam0 env
    obtain ⟨run, hrun, hits⟩ := main_total ops cam0 env
    refine ⟨run, hrun, fun it hit d hd => ?_⟩
    obtain ⟨g1, f, hf⟩ := hits it hit
    exact key Cam View ops g1 f it hf d hd
  · obtain ⟨r, hr, hm⟩ := main_ok zoomOps ZoomCamera.default
      ⟨true, GLEW_OK, [⟨[Event.scroll 0 10], 0⟩]⟩ rfl rfl
    obtain ⟨r1, r3, h1, h3, hf⟩ := frame_eq zoomOps (Globals.init ZoomCamera.default)
      ⟨[Event.scroll 0 10], 0⟩
    have hcam := calculateCameraMovement_cam zoomOps (fun _ _ _ => rfl) _ r3 h3
    simp only [pollEvents, dispatch, scroll_callback, Option.some_bind, Option.map_some',
      Option.some.injEq] at h1
    subst h1
    have hzoom : r3.1.cam.zoom = 35 := by
      rw [hcam]
      simp only [Globals.init, zoomOps, ZoomCamera.processScroll, ZoomCamera.default]
      norm_num
    rw [renderLoop, hf] at hr
    simp only [Globals.init, Bool.false_eq_true, if_false, Option.some_bind, renderLoop,
      Option.map_some', Option.some.injEq] at hr
    subst hr
    refine ⟨_, _, hm, rfl, hzoom, fun d hd => ?_⟩
    obtain ⟨m, hm1, hm2⟩ := key _ _ zoomOps _ _ _ hf d hd
    refine ⟨m, hm1, hm2, ?_⟩
    rw [hm2]
    show (45 : ℚ) ≠ r3.1.cam.zoom
    rw [hzoom]
    norm_num

end FieldOfView

/-! ## Mouse offsets (`mouse_callback`) -/

section Mouse

variable {Cam View : Type}

end Mouse

/-! ## The frame clock -/

section FrameClock

variable {Cam View : Type}

end FrameClock

/-! ## The front vector of the spec's camera -/

section Front

end Front

end LearnOpenGL
